import Mathlib

/-!
A shallow embedding of the gPXE TFTP client engine (`src/net/udp/tftp.c`).

Machine integers are modelled as `Nat` with explicit `% 2 ^ 32` (resp.
`% 2 ^ 16`) where the C code's `unsigned int` / `uint16_t` overflow matters.
Stateful code is modelled as explicit state passing: each operation takes a
`TftpState` and returns a `Step`, i.e. the new state, the list of externally
visible events it emitted (downstream seeks and writes, packets sent, socket
and timer operations, and the terminal `done` notification), and its C return
code.

External collaborators (UDP sockets, the retry timer, the downstream data
transfer interface, memory allocation) are modelled as always succeeding;
their invocations are recorded as events.  The block bitmap
(`include/gpxe/bitmap.h`, not part of the sources under verification) is
modelled from the spec as a resizable bit array.
-/

namespace TftpSpec

/-- Abstract errno values. gPXE uses its own platform error encoding; only
distinctness and identity of the codes matter for the verified properties. -/
def EINVAL : Nat := 22

/-- Abstract errno value for "no such file or directory". -/
def ENOENT : Nat := 2

/-- Abstract errno value for "permission denied". -/
def EACCES : Nat := 13

/-- Abstract errno value for "operation not supported". -/
def ENOTSUP : Nat := 95

/-- Abstract errno value for "connection timed out". -/
def ETIMEDOUT : Nat := 110

/-- gPXE per-file error uniqueness bits (`EUNIQ_01` .. `EUNIQ_07`). -/
def EUNIQ_01 : Nat := 0x100

/-- gPXE error uniqueness bits, second code. -/
def EUNIQ_02 : Nat := 0x200

/-- gPXE error uniqueness bits, third code. -/
def EUNIQ_03 : Nat := 0x300

/-- gPXE error uniqueness bits, fourth code. -/
def EUNIQ_04 : Nat := 0x400

/-- gPXE error uniqueness bits, fifth code. -/
def EUNIQ_05 : Nat := 0x500

/-- gPXE error uniqueness bits, sixth code. -/
def EUNIQ_06 : Nat := 0x600

/-- gPXE error uniqueness bits, seventh code. -/
def EUNIQ_07 : Nat := 0x700

/-- TFTP-specific error code: invalid blksize option value. -/
def ETFTP_INVALID_BLKSIZE : Nat := EUNIQ_01

/-- TFTP-specific error code: invalid tsize option value. -/
def ETFTP_INVALID_TSIZE : Nat := EUNIQ_02

/-- TFTP-specific error code: multicast option missing port and mc fields. -/
def ETFTP_MC_NO_PORT : Nat := EUNIQ_03

/-- TFTP-specific error code: multicast option missing mc field. -/
def ETFTP_MC_NO_MC : Nat := EUNIQ_04

/-- TFTP-specific error code: multicast option has invalid mc field. -/
def ETFTP_MC_INVALID_MC : Nat := EUNIQ_05

/-- TFTP-specific error code: multicast option has invalid IP address. -/
def ETFTP_MC_INVALID_IP : Nat := EUNIQ_06

/-- TFTP-specific error code: multicast option has invalid port. -/
def ETFTP_MC_INVALID_PORT : Nat := EUNIQ_07

/-- Negated errno as the C functions return it (`return -( EINVAL | ... )`). -/
def errno (e : Nat) : Int := -(Int.ofNat e)

/-- Standard TFTP server port (`TFTP_PORT`). -/
def TFTP_PORT : Nat := 69

/-- MTFTP server port (`MTFTP_PORT`). -/
def MTFTP_PORT : Nat := 1759

/-- Default TFTP data block size (`TFTP_DEFAULT_BLKSIZE`, from gpxe/tftp.h). -/
def TFTP_DEFAULT_BLKSIZE : Nat := 512

/-- Maximum TFTP data block size requested by gPXE (`TFTP_MAX_BLKSIZE`). -/
def TFTP_MAX_BLKSIZE : Nat := 1432

/-- Maximum number of MTFTP open timeouts before falling back to TFTP. -/
def MTFTP_MAX_TIMEOUTS : Nat := 3

/-- A transport-layer source/destination address (`struct sockaddr_tcpip`).
The C code compares peers with `memcmp` over the whole structure, which is
structural equality of all fields. -/
structure SockAddr where
  st_family : Nat
  st_port : Nat
  st_addr : Nat
deriving DecidableEq, Repr

/-- The TFTP request flags (`TFTP_FL_*`), one Bool per flag bit. -/
structure TftpFlags where
  send_ack : Bool
  rrq_sizes : Bool
  rrq_multicast : Bool
  mtftp_recovery : Bool
deriving DecidableEq, Repr

/-- Modelled from the spec: the block bitmap of `include/gpxe/bitmap.h`
(whose implementation is not under the verified sources) is "a resizable bit
array, one bit per expected block".  `bits` holds one Bool per block index,
starting at index 0 (the block with wire number 1). -/
structure Bitmap where
  bits : List Bool
deriving DecidableEq, Repr

/-- Modelled from the spec: `bitmap_first_gap` returns the index of the first
clear bit (the first unreceived block), or the bitmap length if all bits are
set. -/
def bitmap_first_gap (bm : Bitmap) : Nat :=
  (bm.bits.findIdx? (fun b => !b)).getD bm.bits.length

/-- Modelled from the spec: `bitmap_set` sets one bit; indices beyond the
current length are ignored. -/
def bitmap_set (bm : Bitmap) (i : Nat) : Bitmap :=
  ⟨bm.bits.set i true⟩

/-- Modelled from the spec: `bitmap_resize` resizes the bit array, keeping
already-set bits and clearing any newly added bits.  Allocation failure is
not modelled (the resize always succeeds). -/
def bitmap_resize (bm : Bitmap) (new_length : Nat) : Bitmap :=
  ⟨if new_length ≤ bm.bits.length then bm.bits.take new_length
   else bm.bits ++ List.replicate (new_length - bm.bits.length) false⟩

/-- Modelled from the spec: `bitmap_full` tests whether every bit is set. -/
def bitmap_full (bm : Bitmap) : Bool :=
  bm.bits.all (fun b => b)

/-- The mutable state of a TFTP request (`struct tftp_request`), restricted
to the fields the protocol engine reads or writes.  `peer = none` models a
zeroed `peer` with `st_family == 0`. -/
structure TftpState where
  blksize : Nat
  tsize : Nat
  port : Nat
  peer : Option SockAddr
  flags : TftpFlags
  mtftp_timeouts : Nat
  bitmap : Bitmap
  filesize : Nat
deriving DecidableEq, Repr

/-- An externally visible action of the engine: calls into the downstream
data-transfer interface, packets handed to the sockets, socket and timer
management, and the terminal `tftp_done` notification. -/
inductive Ev where
  | seek (offset : Nat)
  | write (offset : Nat) (len : Nat)
  | sendRrq
  | sendAck (blockNum : Nat)
  | closeSocket
  | openSocket
  | closeMcSocket
  | openMcSocket
  | timerStop
  | timerStart
  | timerStartNodelay
  | done (rc : Int)
deriving DecidableEq, Repr

/-- Result of one engine operation: the new request state, the events emitted
in order, and the operation's C return code. -/
structure Step where
  st : TftpState
  evs : List Ev
  rc : Int
deriving DecidableEq, Repr

/-- The request state as `tftp_core_open` initialises it: `zalloc` zeroes
everything, then `blksize` is set to `TFTP_DEFAULT_BLKSIZE`, and `flags` and
`port` are set from the caller. -/
def tftp_initial_state (port : Nat) (flags : TftpFlags) : TftpState :=
  { blksize := TFTP_DEFAULT_BLKSIZE, tsize := 0, port := port, peer := none,
    flags := flags, mtftp_timeouts := 0, bitmap := ⟨[]⟩, filesize := 0 }

/-- `tftp_set_request_blksize`: the global requested blocksize, clamped from
below to `TFTP_DEFAULT_BLKSIZE`.  Returns new value of the global. -/
def tftp_set_request_blksize (blksize : Nat) : Nat :=
  if blksize < TFTP_DEFAULT_BLKSIZE then TFTP_DEFAULT_BLKSIZE else blksize

/-- `tftp_presize`: record a new known minimum file size, notify the
downstream interface (seek to the end and back, modelled as two `seek`
events), and resize the block bitmap to `filesize / blksize + 1` bits. -/
def tftp_presize (st : TftpState) (filesize : Nat) : Step :=
  if filesize ≤ st.filesize then { st := st, evs := [], rc := 0 }
  else
    let st1 := { st with filesize := filesize }
    let num_blocks := filesize / st1.blksize + 1
    let st2 := { st1 with bitmap := bitmap_resize st1.bitmap num_blocks }
    { st := st2, evs := [Ev.seek filesize, Ev.seek 0], rc := 0 }

/-- Numeric value of a hexadecimal digit character, if it is one. -/
def hexVal (c : Char) : Option Nat :=
  if '0' ≤ c ∧ c ≤ '9' then some (c.toNat - '0'.toNat)
  else if 'a' ≤ c ∧ c ≤ 'f' then some (c.toNat - 'a'.toNat + 10)
  else if 'A' ≤ c ∧ c ≤ 'F' then some (c.toNat - 'A'.toNat + 10)
  else none

/-- Numeric value of a digit character in the given base, if valid. -/
def digitInBase (base : Nat) (c : Char) : Option Nat :=
  match hexVal c with
  | some v => if v < base then some v else none
  | none => none

/-- Accumulating digit loop of `strtoul`: consume leading digits of the given
base, returning the accumulated value and the unconsumed remainder (the
position `*end` points at). -/
def strtoulLoop (base : Nat) (acc : Nat) : List Char → Nat × List Char
  | [] => (acc, [])
  | c :: cs =>
    match digitInBase base c with
    | some v => strtoulLoop base (acc * base + v) cs
    | none => (acc, c :: cs)

/-- C `strtoul(s, &end, 10)` on a NUL-terminated option string.  Leading
whitespace, sign characters, and `ULONG_MAX` saturation are not modelled:
the engine only ever parses option values which are plain digit strings. -/
def strtoul10 (s : List Char) : Nat × List Char :=
  strtoulLoop 10 0 s

/-- C `strtoul(s, &end, 0)` (auto-detected base): a `0x`/`0X` prefix followed
by a hex digit selects base 16, a leading `0` selects base 8, anything else
base 10.  As for `strtoul10`, whitespace, signs and saturation are not
modelled. -/
def strtoul0 (s : List Char) : Nat × List Char :=
  match s with
  | '0' :: x :: rest =>
    if x = 'x' ∨ x = 'X' then
      match digitInBase 16 (rest.headD ' ') with
      | some _ => strtoulLoop 16 0 rest
      | none => (0, x :: rest)
    else strtoulLoop 8 0 ('0' :: x :: rest)
  | _ => strtoul10 s

/-- `tftp_process_blksize`: parse the option value as decimal, store it as
the request's block size (the store happens before the validity check, as in
the C), and fail if the value has a non-numeric tail. -/
def tftp_process_blksize (st : TftpState) (value : List Char) : Step :=
  let p := strtoul10 value
  let st1 := { st with blksize := p.1 }
  if p.2 ≠ [] then
    { st := st1, evs := [], rc := errno (EINVAL ||| ETFTP_INVALID_BLKSIZE) }
  else { st := st1, evs := [], rc := 0 }

/-- `tftp_process_tsize`: parse the option value as decimal, store it as the
request's tsize, and fail if the value has a non-numeric tail. -/
def tftp_process_tsize (st : TftpState) (value : List Char) : Step :=
  let p := strtoul10 value
  let st1 := { st with tsize := p.1 }
  if p.2 ≠ [] then
    { st := st1, evs := [], rc := errno (EINVAL ||| ETFTP_INVALID_TSIZE) }
  else { st := st1, evs := [], rc := 0 }

/-- C `strchr` followed by splitting at the found character: returns the
part before the first occurrence of `c` and the part after it, or `none` if
`c` does not occur. -/
def strchrSplit (c : Char) : List Char → Option (List Char × List Char)
  | [] => none
  | x :: xs =>
    if x = c then some ([], xs)
    else
      match strchrSplit c xs with
      | some (a, b) => some (x :: a, b)
      | none => none

/-- Split a character list at every occurrence of `c`. -/
def splitAll (c : Char) : List Char → List (List Char)
  | [] => [[]]
  | x :: xs =>
    let r := splitAll c xs
    if x = c then [] :: r
    else
      match r with
      | h :: t => (x :: h) :: t
      | [] => [[x]]

/-- Parse a decimal component of a dotted quad, bounded by 255. -/
def parseDec255 (s : List Char) : Option Nat :=
  if s ≠ [] ∧ s.all Char.isDigit then
    let v := (strtoul10 s).1
    if v ≤ 255 then some v else none
  else none

/-- Modelled from the spec: `inet_aton` (not under the verified sources)
parses an IPv4 address; the spec only requires "parse as IPv4", so the
common dotted-quad form is modelled. -/
def inet_aton (s : List Char) : Option Nat :=
  match (splitAll '.' s).mapM parseDec255 with
  | some [a, b, c, d] => some (((a * 256 + b) * 256 + c) * 256 + d)
  | _ => none

/-- `tftp_process_multicast`: split the option value at the first two commas
into `addr`, `port` and `mc`; parse `mc` with base-0 `strtoul`, clearing the
SEND_ACK flag if it parses to zero (before the validity check, as in the C);
then, if both `addr` and `port` are non-empty, parse them and reopen the
multicast socket. -/
def tftp_process_multicast (st : TftpState) (value : List Char) : Step :=
  match strchrSplit ',' value with
  | none => { st := st, evs := [], rc := errno (EINVAL ||| ETFTP_MC_NO_PORT) }
  | some (addr, rest) =>
    match strchrSplit ',' rest with
    | none => { st := st, evs := [], rc := errno (EINVAL ||| ETFTP_MC_NO_MC) }
    | some (portStr, mc) =>
      let p := strtoul0 mc
      let st1 :=
        if p.1 = 0 then { st with flags := { st.flags with send_ack := false } }
        else st
      if p.2 ≠ [] then
        { st := st1, evs := [], rc := errno (EINVAL ||| ETFTP_MC_INVALID_MC) }
      else if addr ≠ [] ∧ portStr ≠ [] then
        match inet_aton addr with
        | none =>
          { st := st1, evs := [], rc := errno (EINVAL ||| ETFTP_MC_INVALID_IP) }
        | some _ =>
          let pp := strtoul0 portStr
          if pp.2 ≠ [] then
            { st := st1, evs := [],
              rc := errno (EINVAL ||| ETFTP_MC_INVALID_PORT) }
          else
            { st := st1, evs := [Ev.closeMcSocket, Ev.openMcSocket], rc := 0 }
      else { st := st1, evs := [], rc := 0 }

/-- Case-insensitive string equality (`strcasecmp(...) == 0`). -/
def lowerEq (a b : List Char) : Bool :=
  a.map Char.toLower == b.map Char.toLower

/-- `tftp_process_option`: dispatch on the option name case-insensitively;
unknown options are silently ignored. -/
def tftp_process_option (st : TftpState) (name value : List Char) : Step :=
  if lowerEq name "blksize".toList then tftp_process_blksize st value
  else if lowerEq name "tsize".toList then tftp_process_tsize st value
  else if lowerEq name "multicast".toList then tftp_process_multicast st value
  else { st := st, evs := [], rc := 0 }

/-- `tftp_send_rrq`: transmit an RRQ (the packet contents are not needed by
the verified properties and are abstracted to a `sendRrq` event). -/
def tftp_send_rrq (st : TftpState) : Step :=
  { st := st, evs := [Ev.sendRrq], rc := 0 }

/-- `tftp_send_ack`: transmit an ACK carrying the 16-bit truncation of the
first gap of the block bitmap (the next required block). -/
def tftp_send_ack (st : TftpState) : Step :=
  { st := st, evs := [Ev.sendAck (bitmap_first_gap st.bitmap % 65536)],
    rc := 0 }

/-- `tftp_send_packet`: restart the retransmission timer, then send an RRQ
if no peer is known yet, an ACK if a peer is known and SEND_ACK is set, and
nothing otherwise. -/
def tftp_send_packet (st : TftpState) : Step :=
  let r :=
    match st.peer with
    | none => tftp_send_rrq st
    | some _ =>
      if st.flags.send_ack then tftp_send_ack st
      else { st := st, evs := [], rc := 0 }
  { st := r.st, evs := [Ev.timerStop, Ev.timerStart] ++ r.evs, rc := r.rc }

/-- `tftp_reopen`: close and reopen the unicast socket, clearing SEND_ACK
and resetting the peer address.  Socket-open failure is not modelled. -/
def tftp_reopen (st : TftpState) : Step :=
  let st1 := { st with flags := { st.flags with send_ack := false },
                       peer := none }
  { st := st1, evs := [Ev.closeSocket, Ev.openSocket], rc := 0 }

/-- `tftp_timer_expired`: under MTFTP recovery, either reopen the socket (a
peer was heard) or count a timeout and, past `MTFTP_MAX_TIMEOUTS`, fall back
to plain TFTP; otherwise fail on `fail` or simply resend. -/
def tftp_timer_expired (st : TftpState) (fail : Bool) : Step :=
  if st.flags.mtftp_recovery then
    match st.peer with
    | some _ =>
      let r := tftp_reopen st
      let s := tftp_send_packet r.st
      { st := s.st, evs := r.evs ++ s.evs, rc := s.rc }
    | none =>
      let st1 := { st with mtftp_timeouts := st.mtftp_timeouts + 1 }
      if st1.mtftp_timeouts > MTFTP_MAX_TIMEOUTS then
        let st2 := { st1 with
          flags := { send_ack := false, rrq_sizes := true,
                     rrq_multicast := false, mtftp_recovery := false } }
        let st3 := { st2 with bitmap := ⟨[]⟩, port := TFTP_PORT }
        let r := tftp_reopen st3
        let s := tftp_send_packet r.st
        { st := s.st,
          evs := [Ev.closeMcSocket, Ev.timerStartNodelay] ++ r.evs ++ s.evs,
          rc := s.rc }
      else
        tftp_send_packet st1
  else
    if fail then
      { st := st, evs := [Ev.done (errno ETIMEDOUT)], rc := errno ETIMEDOUT }
    else
      tftp_send_packet st

/-- The 16-bit block-number reconstruction of `tftp_rx_data`: round the next
required block plus one down to a 64K boundary in 32-bit unsigned
arithmetic (`(bitmap_first_gap+1) & ~0xffff`), then add `b16 - 1` with
32-bit wraparound (`b16 - 1` is `-1` when `b16 = 0`). -/
def tftp_decode_block (g b16 : Nat) : Nat :=
  let w := ((g + 1) % 2 ^ 32) &&& 0xFFFF0000
  (w + b16 + (2 ^ 32 - 1)) % 2 ^ 32

/-- `tftp_rx_data`: validate the packet length, reconstruct the full block
number, reject data block 0 in the first 64K window, deliver the payload at
`block * blksize`, presize the bitmap, mark the block received, acknowledge,
and finish when the bitmap is full.  `len` is the total packet length in
bytes (header is 4 bytes), `b16` the 16-bit wire block number. -/
def tftp_rx_data (st : TftpState) (len b16 : Nat) : Step :=
  if len < 4 then
    { st := st, evs := [Ev.done (errno EINVAL)], rc := errno EINVAL }
  else
    let g := bitmap_first_gap st.bitmap
    let w := ((g + 1) % 2 ^ 32) &&& 0xFFFF0000
    if b16 = 0 ∧ w = 0 then
      { st := st, evs := [Ev.done (errno EINVAL)], rc := errno EINVAL }
    else
      let block := tftp_decode_block g b16
      let offset := block * st.blksize % 2 ^ 32
      let data_len := len - 4
      if st.blksize < data_len then
        { st := st, evs := [Ev.done (errno EINVAL)], rc := errno EINVAL }
      else
        let p := tftp_presize st (offset + data_len)
        if p.rc ≠ 0 then
          { st := p.st, evs := Ev.write offset data_len :: p.evs
                               ++ [Ev.done p.rc],
            rc := p.rc }
        else
          let st2 := { p.st with bitmap := bitmap_set p.st.bitmap block }
          let s := tftp_send_packet st2
          if bitmap_full st2.bitmap then
            { st := s.st, evs := Ev.write offset data_len :: p.evs ++ s.evs
                                 ++ [Ev.done 0],
              rc := 0 }
          else
            { st := s.st, evs := Ev.write offset data_len :: p.evs ++ s.evs,
              rc := 0 }

/-- The `tftp_errors` translation table from TFTP wire error codes to
errno values, with designated initialisers for codes 1, 2 and 4. -/
def tftp_errors : List Nat := [0, ENOENT, EACCES, 0, ENOTSUP]

/-- `tftp_rx_error`: an underlength ERROR packet is rejected without
terminating the request; otherwise the wire error code is mapped through
`tftp_errors` (falling back to `ENOTSUP`) and the request is finished. -/
def tftp_rx_error (st : TftpState) (len errcode : Nat) : Step :=
  if len < 4 then { st := st, evs := [], rc := errno EINVAL }
  else
    let rc0 : Int :=
      if errcode < tftp_errors.length then
        -(Int.ofNat (tftp_errors.getD errcode 0))
      else 0
    let rc := if rc0 = 0 then errno ENOTSUP else rc0
    { st := st, evs := [Ev.done rc], rc := 0 }

/-- Process the options of an OACK in order, stopping at the first failing
option processor (whose state mutations are kept, as in the C). -/
def tftp_process_options (st : TftpState) :
    List (List Char × List Char) → Step
  | [] => { st := st, evs := [], rc := 0 }
  | (n, v) :: rest =>
    let r := tftp_process_option st n v
    if r.rc ≠ 0 then r
    else
      let r2 := tftp_process_options r.st rest
      { st := r2.st, evs := r.evs ++ r2.evs, rc := r2.rc }

/-- `tftp_rx_oack`: validate the length, process each option, presize from
tsize when known, and request the next data block.  The byte-level
NUL-delimited option parsing (with its tolerance for trailing garbage) is
abstracted: `opts` is the list of complete name/value pairs it yields. -/
def tftp_rx_oack (st : TftpState) (len : Nat)
    (opts : List (List Char × List Char)) : Step :=
  if len < 2 then
    { st := st, evs := [Ev.done (errno EINVAL)], rc := errno EINVAL }
  else
    let r := tftp_process_options st opts
    if r.rc ≠ 0 then { st := r.st, evs := r.evs ++ [Ev.done r.rc], rc := r.rc }
    else
      let p :=
        if r.st.tsize ≠ 0 then tftp_presize r.st r.st.tsize
        else { st := r.st, evs := [], rc := 0 }
      if p.rc ≠ 0 then
        { st := p.st, evs := r.evs ++ p.evs ++ [Ev.done p.rc], rc := p.rc }
      else
        let s := tftp_send_packet p.st
        { st := s.st, evs := r.evs ++ p.evs ++ s.evs, rc := 0 }

/-- A received packet, as the fields `tftp_rx` and its handlers read them:
total wire length, and for DATA/ERROR the second 16-bit header field (whose
value is only meaningful when `len ≥ 4`).  For OACK, `opts` stands for the
name/value pairs the option parser extracts. -/
inductive Pkt where
  | oack (len : Nat) (opts : List (List Char × List Char))
  | data (len : Nat) (b16 : Nat)
  | error (len : Nat) (errcode : Nat)
  | other (len : Nat) (opcode : Nat)
deriving DecidableEq, Repr

/-- Total wire length of a received packet. -/
def pktLen : Pkt → Nat
  | .oack len _ => len
  | .data len _ => len
  | .error len _ => len
  | .other len _ => len

/-- The opcode switch of `tftp_rx`: dispatch to the OACK, DATA or ERROR
handler; any other opcode is dropped with `-EINVAL`. -/
def tftp_rx_dispatch (st : TftpState) : Pkt → Step
  | .oack len opts => tftp_rx_oack st len opts
  | .data len b16 => tftp_rx_data st len b16
  | .error len errcode => tftp_rx_error st len errcode
  | .other _ _ => { st := st, evs := [], rc := errno EINVAL }

/-- `tftp_rx`: drop underlength packets and packets without a source
address; learn the peer from the first response; drop packets whose source
differs from the recorded peer; then dispatch on the opcode. -/
def tftp_rx (st : TftpState) (pkt : Pkt) (src : Option SockAddr) : Step :=
  if pktLen pkt < 2 then { st := st, evs := [], rc := errno EINVAL }
  else
    match src with
    | none => { st := st, evs := [], rc := errno EINVAL }
    | some s =>
      match st.peer with
      | none => tftp_rx_dispatch { st with peer := some s } pkt
      | some p =>
        if p ≠ s then { st := st, evs := [], rc := errno EINVAL }
        else tftp_rx_dispatch st pkt

/-- `tftp_socket_deliver_iob`: a packet arriving on the unicast socket
enables ACK sending before being processed. -/
def tftp_socket_deliver_iob (st : TftpState) (pkt : Pkt)
    (src : Option SockAddr) : Step :=
  tftp_rx { st with flags := { st.flags with send_ack := true } } pkt src

/-- Flag set of a plain TFTP request (`TFTP_FL_RRQ_SIZES`). -/
def stdFlags : TftpFlags :=
  { send_ack := false, rrq_sizes := true, rrq_multicast := false,
    mtftp_recovery := false }

/-- Flag set of an MTFTP request (`TFTP_FL_MTFTP_RECOVERY`). -/
def mtftpFlags : TftpFlags :=
  { send_ack := false, rrq_sizes := false, rrq_multicast := false,
    mtftp_recovery := true }

/-- A sample server address used in concrete scenarios. -/
def sampleAddr : SockAddr :=
  { st_family := 2, st_port := 1234, st_addr := 99 }

/-- Drive a sequence of received DATA packets (length and wire block number)
through `tftp_rx_data`, chaining the state and concatenating the events. -/
def tftp_rx_data_seq (st : TftpState) : List (Nat × Nat) → Step
  | [] => { st := st, evs := [], rc := 0 }
  | (len, b16) :: rest =>
    let r := tftp_rx_data st len b16
    let r2 := tftp_rx_data_seq r.st rest
    { st := r2.st, evs := r.evs ++ r2.evs, rc := r2.rc }

/-- The state of a download just before the first DATA block in the
out-of-order scenario: the peer is known, ACK sending is enabled, and no
tsize was negotiated (empty bitmap, filesize 0). -/
def c3init (b : Nat) : TftpState :=
  { blksize := b, tsize := 0, port := 69, peer := some sampleAddr,
    flags := { send_ack := true, rrq_sizes := true, rrq_multicast := false,
               mtftp_recovery := false },
    mtftp_timeouts := 0, bitmap := ⟨[]⟩, filesize := 0 }

/-- The out-of-order scenario: DATA blocks with wire numbers 1, 3, 2, 4
arrive in that order; blocks 1-3 carry a full `b`-byte payload and block 4
is zero-length. -/
def c3run (b : Nat) : Step :=
  tftp_rx_data_seq (c3init b) [(4 + b, 1), (4 + b, 3), (4 + b, 2), (4, 4)]

/-- The block numbers of the ACK packets in an event list, in order. -/
def acksOf (evs : List Ev) : List Nat :=
  evs.filterMap (fun e => match e with | .sendAck n => some n | _ => none)

/-- State of the out-of-order scenario after DATA block 1: filesize `b`,
blocks {1} received. -/
def c3st1 (b : Nat) : TftpState :=
  { c3init b with filesize := b, bitmap := ⟨[true, false]⟩ }

/-- State of the out-of-order scenario after DATA blocks 1, 3: filesize
`3b`, blocks {1, 3} received. -/
def c3st2 (b : Nat) : TftpState :=
  { c3init b with filesize := 2 * b + b,
                  bitmap := ⟨[true, false, true, false]⟩ }

/-- State of the out-of-order scenario after DATA blocks 1, 3, 2. -/
def c3st3 (b : Nat) : TftpState :=
  { c3init b with filesize := 2 * b + b,
                  bitmap := ⟨[true, true, true, false]⟩ }

/-- State of the out-of-order scenario after all four DATA blocks. -/
def c3st4 (b : Nat) : TftpState :=
  { c3init b with filesize := 2 * b + b,
                  bitmap := ⟨[true, true, true, true]⟩ }

/-- The (offset, length) pairs of the downstream writes in an event list. -/
def writesOf (evs : List Ev) : List (Nat × Nat) :=
  evs.filterMap (fun e => match e with | .write o l => some (o, l) | _ => none)

/-- Masking a 32-bit value with `0xFFFF0000` (the C `& ~0xffff` on an
`unsigned int`) zeroes the low 16 bits: it rounds down to a multiple of
`2 ^ 16`. -/
theorem and_hi16 (n : Nat) (hn : n < 2 ^ 32) :
    n &&& 0xFFFF0000 = 2 ^ 16 * (n / 2 ^ 16) := by
  have hr : n % 2 ^ 16 < 2 ^ 16 := Nat.mod_lt _ (by norm_num)
  have hq : n / 2 ^ 16 < 2 ^ 16 := by
    apply Nat.div_lt_of_lt_mul
    calc n < 2 ^ 32 := hn
    _ = 2 ^ 16 * 2 ^ 16 := by norm_num
  apply Nat.eq_of_testBit_eq
  intro j
  rw [Nat.testBit_and]
  conv_lhs =>
    rw [show n = 2 ^ 16 * (n / 2 ^ 16) + n % 2 ^ 16 from
          (Nat.div_add_mod n (2 ^ 16)).symm]
  rw [Nat.testBit_mul_pow_two_add _ hr,
      show (0xFFFF0000 : Nat) = 2 ^ 16 * (2 ^ 16 - 1) from by norm_num,
      Nat.testBit_mul_pow_two, Nat.testBit_mul_pow_two,
      Nat.testBit_two_pow_sub_one]
  by_cases hj : j < 16
  · simp [hj, Nat.not_le.mpr hj]
  · by_cases hj2 : j - 16 < 16
    · simp [hj, Nat.not_lt.mp hj, hj2]
    · have : (n / 2 ^ 16).testBit (j - 16) = false := by
        apply Nat.testBit_lt_two_pow
        calc n / 2 ^ 16 < 2 ^ 16 := hq
        _ ≤ 2 ^ (j - 16) := Nat.pow_le_pow_right (by norm_num) (by omega)
      have this65536 : (n / 65536).testBit (j - 16) = false := by
        simpa [show (2:Nat) ^ 16 = 65536 from by norm_num] using this
      simp [hj, Nat.not_lt.mp hj, hj2, this, this65536]

/-- C1: the block-number reconstruction formula is NOT correct on the whole
window `|B - g| < 32768`.  Counterexample: with first clear index
`g = 65534` and true full block index `B = 65536` (so `|B - g| = 2`), the
wire field is `b16 = (B + 1) % 65536 = 1`, yet the formula decodes 0, not
65536: `(g + 1) & ~0xffff` rounds down to the 64K boundary below `g`. -/
theorem C1_counterexample :
    ((65536 : Int) - 65534).natAbs < 32768 ∧
    tftp_decode_block 65534 ((65536 + 1) % 65536) = 0 ∧
    tftp_decode_block 65534 ((65536 + 1) % 65536) ≠ 65536 := by
  refine ⟨by norm_num, by decide, by decide⟩

/-- C1 (amended): the reconstruction is correct exactly on the 64K-aligned
window: for every true full block index `B` and first clear index `g` (both
below `2 ^ 31`, as guaranteed for files of at most `2 ^ 31` bytes), decoding
the wire field `b16 = (B + 1) % 65536` via
`((g + 1) & ~0xffff) + (b16 - 1)` yields exactly `B` whenever `B + 1` and
`g + 1` lie in the same 65536-aligned window, i.e.
`(B + 1) / 65536 = (g + 1) / 65536`. -/
theorem C1_decode_correct_same_window (B g : Nat)
    (hB : B < 2 ^ 31) (hg : g < 2 ^ 31)
    (hwin : (B + 1) / 65536 = (g + 1) / 65536) :
    tftp_decode_block g ((B + 1) % 65536) = B := by
  unfold tftp_decode_block
  have h1 : (g + 1) % 2 ^ 32 = g + 1 := Nat.mod_eq_of_lt (by omega)
  rw [h1, and_hi16 (g + 1) (by omega),
      show (2:Nat) ^ 16 = 65536 from by norm_num, ← hwin]
  show (65536 * ((B + 1) / 65536) + (B + 1) % 65536 + (2 ^ 32 - 1)) % 2 ^ 32
        = B
  have h3 := Nat.div_add_mod (B + 1) 65536
  omega

/-- Witness for C1's amended theorem: with `g = 65600` and `B = 65536`
(both one past the 64K boundary), the wire field 1 decodes to 65536. -/
theorem C1_decode_correct_same_window_witness :
    tftp_decode_block 65600 ((65536 + 1) % 65536) = 65536 :=
  C1_decode_correct_same_window 65536 65600 (by norm_num) (by norm_num)
    (by norm_num)

/-- Resizing the bitmap yields exactly the requested length. -/
theorem bitmap_resize_length (bm : Bitmap) (n : Nat) :
    (bitmap_resize bm n).bits.length = n := by
  unfold bitmap_resize
  split <;> simp <;> omega

/-- C2: the invariant `bitmap length ≥ ⌈filesize / blksize⌉ + 1` does NOT
hold.  Counterexample: presizing a fresh request (blksize 512) to 700 bytes
resizes the bitmap to `700 / 512 + 1 = 2` bits, but
`⌈700 / 512⌉ + 1 = 3`. -/
theorem C2_counterexample :
    (tftp_presize (tftp_initial_state 69 stdFlags) 700).st.bitmap.bits.length
        = 2 ∧
    ¬ ((700 + 512 - 1) / 512 + 1 ≤
        (tftp_presize (tftp_initial_state 69 stdFlags)
            700).st.bitmap.bits.length) := by
  refine ⟨by decide, by decide⟩

/-- C2 (amended): after every `tftp_presize`, the bitmap length is at least
`⌊filesize / blksize⌋ + 1` (which equals `⌈filesize / blksize⌉ + 1` exactly
when `filesize` is a multiple of `blksize`, so a trailing zero-length block
is representable in that case): a presize that grows `filesize` to `F`
resizes the bitmap to exactly `F / blksize + 1` bits, and a no-op presize
preserves the invariant. -/
theorem C2_bitmap_length_invariant (st : TftpState) (F : Nat)
    (h : st.filesize / st.blksize + 1 ≤ st.bitmap.bits.length) :
    (tftp_presize st F).st.filesize / (tftp_presize st F).st.blksize + 1 ≤
      (tftp_presize st F).st.bitmap.bits.length := by
  unfold tftp_presize
  split
  · simpa using h
  · simp [bitmap_resize_length]

/-- Witness for C2's amended invariant: a request already presized to
3000 bytes (bitmap of 6 bits) keeps the invariant when presized to 5000. -/
theorem C2_bitmap_length_invariant_witness :
    (tftp_presize (tftp_presize (tftp_initial_state 69 stdFlags) 3000).st
          5000).st.filesize /
        (tftp_presize (tftp_presize (tftp_initial_state 69 stdFlags) 3000).st
            5000).st.blksize + 1 ≤
      (tftp_presize (tftp_presize (tftp_initial_state 69 stdFlags) 3000).st
          5000).st.bitmap.bits.length :=
  C2_bitmap_length_invariant
    (tftp_presize (tftp_initial_state 69 stdFlags) 3000).st 5000 (by decide)

/-- C4: the invariant `blksize ≥ 512` does NOT hold at all times.
Counterexample: processing a server OACK option `blksize` with value `"8"`
succeeds (return code 0) and stores blocksize 8, which is below 512. -/
theorem C4_counterexample :
    (tftp_process_blksize (tftp_initial_state 69 stdFlags)
        ("8".toList)).st.blksize = 8 ∧
    (tftp_process_blksize (tftp_initial_state 69 stdFlags)
        ("8".toList)).rc = 0 ∧
    (8 : Nat) < 512 := by
  refine ⟨by decide, by decide, by decide⟩

/-- C4 (amended): `blksize` is initialised to 512 and the global requested
blocksize is clamped to at least 512, but processing a server `blksize`
option stores the parsed value with no lower bound, so an OACK can make the
request's blocksize smaller than 512. -/
theorem C4_blksize_init_and_clamp :
    (∀ port flags, (tftp_initial_state port flags).blksize = 512) ∧
    (∀ n, 512 ≤ tftp_set_request_blksize n) ∧
    (∃ st value, (tftp_process_blksize st value).rc = 0 ∧
      (tftp_process_blksize st value).st.blksize < 512) := by
  refine ⟨fun _ _ => rfl, fun n => ?_, ?_⟩
  · unfold tftp_set_request_blksize TFTP_DEFAULT_BLKSIZE
    split <;> omega
  · exact ⟨tftp_initial_state 69 stdFlags, "8".toList, by decide, by decide⟩

/-- C9: `tftp_presize` is idempotent and monotone: a presize to `F ≤
filesize` changes nothing (state, events, return code all trivial), the
filesize never decreases, and a second presize to the same `F` is a no-op,
so `presize F` twice equals `presize F` once. -/
theorem C9_presize_idempotent_monotone (st : TftpState) (F : Nat) :
    (F ≤ st.filesize → tftp_presize st F = { st := st, evs := [], rc := 0 }) ∧
    st.filesize ≤ (tftp_presize st F).st.filesize ∧
    tftp_presize (tftp_presize st F).st F =
      { st := (tftp_presize st F).st, evs := [], rc := 0 } := by
  have hnoop : ∀ (s : TftpState), F ≤ s.filesize →
      tftp_presize s F = { st := s, evs := [], rc := 0 } := by
    intro s hs
    unfold tftp_presize
    rw [if_pos hs]
  by_cases h : F ≤ st.filesize
  · refine ⟨hnoop st, ?_, ?_⟩
    · rw [hnoop st h]
    · rw [hnoop st h]
      exact hnoop st h
  · have hgrow : (tftp_presize st F).st.filesize = F := by
      unfold tftp_presize
      rw [if_neg h]
    refine ⟨fun hc => absurd hc h, ?_, ?_⟩
    · rw [hgrow]
      omega
    · exact hnoop _ (Nat.le_of_eq hgrow.symm)

/-- Witness for C9 at a request presized to 3000 and again to 3000: the
second presize is a no-op. -/
theorem C9_presize_idempotent_monotone_witness :
    tftp_presize (tftp_presize (tftp_initial_state 69 stdFlags) 3000).st 3000
      = { st := (tftp_presize (tftp_initial_state 69 stdFlags) 3000).st,
          evs := [], rc := 0 } :=
  (C9_presize_idempotent_monotone (tftp_initial_state 69 stdFlags) 3000).2.2

/-- C10: an underlength ERROR packet (shorter than the 4-byte ERROR header)
does not terminate the request: `tftp_rx_error` returns `-EINVAL` without
emitting `done` and without touching the state, also when delivered through
`tftp_rx`; an underlength DATA packet, in contrast, terminates the request
with `done(-EINVAL)`. -/
theorem C10_underlength_error_vs_data (st : TftpState)
    (len errcode b16 : Nat) (p : SockAddr) (hlen : len < 4) :
    tftp_rx_error st len errcode =
      { st := st, evs := [], rc := errno EINVAL } ∧
    (2 ≤ len → st.peer = some p →
      tftp_rx st (Pkt.error len errcode) (some p) =
        { st := st, evs := [], rc := errno EINVAL }) ∧
    tftp_rx_data st len b16 =
      { st := st, evs := [Ev.done (errno EINVAL)], rc := errno EINVAL } := by
  have herr : tftp_rx_error st len errcode =
      { st := st, evs := [], rc := errno EINVAL } := by
    unfold tftp_rx_error
    rw [if_pos hlen]
  refine ⟨herr, fun h2 hp => ?_, ?_⟩
  · unfold tftp_rx
    rw [hp]
    simp [pktLen, Nat.not_lt.mpr h2, tftp_rx_dispatch, herr]
  · unfold tftp_rx_data
    rw [if_pos hlen]

/-- Witness for C10 at a 3-byte ERROR and a 3-byte DATA packet. -/
theorem C10_underlength_error_vs_data_witness :
    tftp_rx_error (c3init 512) 3 1 =
      { st := c3init 512, evs := [], rc := errno EINVAL } ∧
    tftp_rx (c3init 512) (Pkt.error 3 1) (some sampleAddr) =
      { st := c3init 512, evs := [], rc := errno EINVAL } ∧
    tftp_rx_data (c3init 512) 3 1 =
      { st := c3init 512, evs := [Ev.done (errno EINVAL)],
        rc := errno EINVAL } := by
  have h := C10_underlength_error_vs_data (c3init 512) 3 1 1 sampleAddr
    (by decide)
  exact ⟨h.1, h.2.1 (by decide) (by decide), h.2.2⟩

/-- C6: on a well-formed ERROR packet (length at least the 4-byte header)
the request terminates exactly once via `done` with the mapped status: wire
code 1 maps to `-ENOENT` (NOT_FOUND), 2 to `-EACCES` (ACCESS_DENIED), and
every other code — including 4 — to `-ENOTSUP` (NOT_SUPPORTED). -/
theorem C6_error_code_mapping (st : TftpState) (len errcode : Nat)
    (hlen : 4 ≤ len) :
    tftp_rx_error st len errcode =
      { st := st,
        evs := [Ev.done (if errcode = 1 then errno ENOENT
                         else if errcode = 2 then errno EACCES
                         else errno ENOTSUP)],
        rc := 0 } := by
  unfold tftp_rx_error
  rw [if_neg (by omega)]
  rcases errcode with _ | _ | _ | _ | _ | n
  · norm_num [tftp_errors, errno, ENOTSUP]
  · norm_num [tftp_errors, errno, ENOENT]
  · norm_num [tftp_errors, errno, EACCES]
  · norm_num [tftp_errors, errno, ENOTSUP]
  · norm_num [tftp_errors, errno, ENOTSUP]
  · rw [if_neg (by norm_num [tftp_errors])]
    have h1 : n + 5 ≠ 1 := by omega
    have h2 : n + 5 ≠ 2 := by omega
    simp [h1, h2, errno, ENOTSUP]

/-- Witness for C6: a 4-byte ERROR packet with code 1 terminates the
request with `-ENOENT`. -/
theorem C6_error_code_mapping_witness :
    tftp_rx_error (c3init 512) 4 1 =
      { st := c3init 512, evs := [Ev.done (errno ENOENT)], rc := 0 } := by
  have h := C6_error_code_mapping (c3init 512) 4 1 (by decide)
  simpa using h

/-- C7: once the peer is set, a delivered packet whose source address
differs from the peer in any field is dropped: the state is unchanged and
no event (no downstream write, no packet send, no `done`) is emitted;
a packet from exactly the peer continues to the opcode dispatch on the
unchanged state. -/
theorem C7_peer_address_filter (st : TftpState) (pkt : Pkt)
    (p q : SockAddr) (hpeer : st.peer = some p) :
    (q ≠ p → tftp_rx st pkt (some q) =
      { st := st, evs := [], rc := errno EINVAL }) ∧
    (2 ≤ pktLen pkt → tftp_rx st pkt (some p) = tftp_rx_dispatch st pkt) := by
  constructor
  · intro hne
    unfold tftp_rx
    by_cases hl : pktLen pkt < 2
    · rw [if_pos hl]
    · rw [if_neg hl, hpeer]
      exact if_pos (fun h => hne h.symm)
  · intro hl
    unfold tftp_rx
    rw [if_neg (by omega), hpeer]
    exact if_neg (fun h => h rfl)

/-- Witness for C7: with the peer recorded, a DATA packet from a different
port is dropped without any effect, while the same packet from the peer is
dispatched. -/
theorem C7_peer_address_filter_witness :
    tftp_rx (c3init 512) (Pkt.data 516 1)
        (some { st_family := 2, st_port := 5678, st_addr := 99 }) =
      { st := c3init 512, evs := [], rc := errno EINVAL } ∧
    tftp_rx (c3init 512) (Pkt.data 516 1) (some sampleAddr) =
      tftp_rx_dispatch (c3init 512) (Pkt.data 516 1) := by
  have h := C7_peer_address_filter (c3init 512) (Pkt.data 516 1) sampleAddr
    { st_family := 2, st_port := 5678, st_addr := 99 } (by decide)
  exact ⟨h.1 (by decide), h.2 (by decide)⟩

/-- C8: processing a `multicast` option value returns `MC_NO_PORT` when the
value has no comma, `MC_NO_MC` when only one comma is found, and
`MC_INVALID_MC` when the `mc` field has a non-numeric tail; whenever the
`mc` field parses to zero, the SEND_ACK flag is cleared (even when a later
check fails). -/
theorem C8_multicast_option (st : TftpState) (value : List Char) :
    (strchrSplit ',' value = none →
      tftp_process_multicast st value =
        { st := st, evs := [], rc := errno (EINVAL ||| ETFTP_MC_NO_PORT) }) ∧
    (∀ addr rest, strchrSplit ',' value = some (addr, rest) →
      strchrSplit ',' rest = none →
      tftp_process_multicast st value =
        { st := st, evs := [], rc := errno (EINVAL ||| ETFTP_MC_NO_MC) }) ∧
    (∀ addr rest portStr mc, strchrSplit ',' value = some (addr, rest) →
      strchrSplit ',' rest = some (portStr, mc) →
      ((strtoul0 mc).2 ≠ [] →
        (tftp_process_multicast st value).rc =
          errno (EINVAL ||| ETFTP_MC_INVALID_MC)) ∧
      ((strtoul0 mc).1 = 0 →
        (tftp_process_multicast st value).st.flags.send_ack = false)) := by
  refine ⟨fun h1 => ?_, fun addr rest h1 h2 => ?_,
          fun addr rest portStr mc h1 h2 => ⟨fun hmc => ?_, fun hz => ?_⟩⟩
  · unfold tftp_process_multicast
    rw [h1]
  · unfold tftp_process_multicast
    simp only [h1, h2]
  · unfold tftp_process_multicast
    simp only [h1, h2]
    simp [hmc]
  · unfold tftp_process_multicast
    simp only [h1, h2, hz, ite_true]
    split
    · rfl
    · split
      · split
        · rfl
        · split
          · rfl
          · rfl
      · rfl

/-- Witness for C8: the value `"239.1.1.1,3001,0z"` has an mc field with a
non-numeric tail, so processing fails with `MC_INVALID_MC`; and since the
mc field parses to zero, SEND_ACK is cleared. -/
theorem C8_multicast_option_witness :
    (tftp_process_multicast (c3init 512) ("239.1.1.1,3001,0z".toList)).rc =
      errno (EINVAL ||| ETFTP_MC_INVALID_MC) ∧
    (tftp_process_multicast (c3init 512)
        ("239.1.1.1,3001,0z".toList)).st.flags.send_ack = false := by
  have h := (C8_multicast_option (c3init 512)
      ("239.1.1.1,3001,0z".toList)).2.2
    ("239.1.1.1".toList) ("3001,0z".toList) ("3001".toList) ("0z".toList)
    (by decide) (by decide)
  exact ⟨h.1 (by decide), h.2 (by decide)⟩

/-- C5: on a timer expiry of an MTFTP request whose peer is still unset,
`mtftp_timeouts` is incremented, and exactly when the incremented count
exceeds 3 the engine falls back to plain TFTP: the flags become RRQ_SIZES
only, the multicast socket is closed, the bitmap is discarded, the port
becomes 69, the unicast socket is reopened with the peer reset, and the
timer is restarted without delay before the RRQ is resent.  When the count
does not exceed 3, only the counter changes and the RRQ is resent. -/
theorem C5_mtftp_timeout_fallback (st : TftpState) (fail : Bool)
    (hrec : st.flags.mtftp_recovery = true) (hpeer : st.peer = none) :
    (tftp_timer_expired st fail).st.mtftp_timeouts =
      st.mtftp_timeouts + 1 ∧
    (if st.mtftp_timeouts + 1 > 3 then
      (tftp_timer_expired st fail).st.flags = stdFlags ∧
      (tftp_timer_expired st fail).st.bitmap = ⟨[]⟩ ∧
      (tftp_timer_expired st fail).st.port = 69 ∧
      (tftp_timer_expired st fail).st.peer = none ∧
      (tftp_timer_expired st fail).evs =
        [Ev.closeMcSocket, Ev.timerStartNodelay, Ev.closeSocket,
         Ev.openSocket, Ev.timerStop, Ev.timerStart, Ev.sendRrq]
    else
      (tftp_timer_expired st fail).st =
        { st with mtftp_timeouts := st.mtftp_timeouts + 1 } ∧
      (tftp_timer_expired st fail).evs =
        [Ev.timerStop, Ev.timerStart, Ev.sendRrq]) := by
  have hexp : tftp_timer_expired st fail =
      (if st.mtftp_timeouts + 1 > MTFTP_MAX_TIMEOUTS then
        { st := { st with
                    flags := stdFlags, bitmap := ⟨[]⟩, port := TFTP_PORT,
                    peer := none,
                    mtftp_timeouts := st.mtftp_timeouts + 1 },
          evs := [Ev.closeMcSocket, Ev.timerStartNodelay, Ev.closeSocket,
                  Ev.openSocket, Ev.timerStop, Ev.timerStart, Ev.sendRrq],
          rc := 0 }
      else
        { st := { st with mtftp_timeouts := st.mtftp_timeouts + 1 },
          evs := [Ev.timerStop, Ev.timerStart, Ev.sendRrq], rc := 0 }) := by
    by_cases hc : st.mtftp_timeouts + 1 > MTFTP_MAX_TIMEOUTS
    · rw [if_pos hc]
      unfold tftp_timer_expired
      rw [if_pos hrec, hpeer]
      dsimp only
      rw [if_pos hc]
      simp [tftp_reopen, tftp_send_packet, tftp_send_rrq, stdFlags,
        TFTP_PORT]
    · rw [if_neg hc]
      unfold tftp_timer_expired
      rw [if_pos hrec, hpeer]
      dsimp only
      rw [if_neg hc]
      simp [tftp_send_packet, tftp_send_rrq, hpeer]
  rw [hexp]
  unfold MTFTP_MAX_TIMEOUTS
  split
  · exact ⟨rfl, rfl, rfl, rfl, rfl, rfl⟩
  · exact ⟨rfl, rfl, rfl⟩

/-- Witness for C5: an MTFTP request with 3 recorded timeouts and no peer
falls back to plain TFTP on the next expiry. -/
theorem C5_mtftp_timeout_fallback_witness :
    (tftp_timer_expired
        { tftp_initial_state 1759 mtftpFlags with mtftp_timeouts := 3 }
        false).st.mtftp_timeouts = 4 ∧
    (tftp_timer_expired
        { tftp_initial_state 1759 mtftpFlags with mtftp_timeouts := 3 }
        false).st.port = 69 ∧
    (tftp_timer_expired
        { tftp_initial_state 1759 mtftpFlags with mtftp_timeouts := 3 }
        false).st.flags = stdFlags := by
  have h := C5_mtftp_timeout_fallback
    { tftp_initial_state 1759 mtftpFlags with mtftp_timeouts := 3 }
    false (by decide) (by decide)
  rw [if_pos (by decide)] at h
  exact ⟨h.1, h.2.2.2.1, h.2.1⟩

/-- C3: in the out-of-order download 1, 3, 2, 4 the engine does NOT send
ACKs 0, 1, 1, 3.  Counterexample at blksize 512: the four ACKs sent carry
1, 1, 3, 4 — each ACK is emitted after the received block has been marked,
so it names the first gap of the updated bitmap, not the one observed
before the block arrived. -/
theorem C3_counterexample :
    acksOf (c3run 512).evs = [1, 1, 3, 4] ∧
    acksOf (c3run 512).evs ≠ [0, 1, 1, 3] := by
  refine ⟨by decide, by decide⟩

/-- C3 (amended): for any blocksize `b` (1 ≤ b ≤ 65464, the largest legal
blksize), the download whose DATA blocks arrive in the order 1, 3, 2, 4
(block 4 zero-length) delivers writes at offsets 0, 2b, b, 3b respectively,
sends four ACKs carrying block numbers 1, 1, 3, 4 (the lowest unreceived
block after marking each arrival), and terminates with status OK after
block 4 with a full bitmap. -/
theorem C3_out_of_order_delivery (b : Nat) (hb : 1 ≤ b) (hb2 : b ≤ 65464) :
    writesOf (c3run b).evs = [(0, b), (2 * b, b), (b, b), (3 * b, 0)] ∧
    acksOf (c3run b).evs = [1, 1, 3, 4] ∧
    (c3run b).evs.getLast? = some (Ev.done 0) ∧
    bitmap_full (c3run b).st.bitmap = true := by
  have hb0 : 0 < b := hb
  have hne : b ≠ 0 := by omega
  have hdiv1 : b / b = 1 := Nat.div_self hb0
  have hdiv3 : (2 * b + b) / b = 3 := by
    rw [show 2 * b + b = 3 * b from by ring, Nat.mul_div_cancel _ hb0]
  have hmb : b % 4294967296 = b := Nat.mod_eq_of_lt (by omega)
  have hm2b : 2 * b % 4294967296 = 2 * b := Nat.mod_eq_of_lt (by omega)
  have hm3b : 3 * b % 4294967296 = 3 * b := Nat.mod_eq_of_lt (by omega)
  have hc3 : b + b ≤ 2 * b + b := by omega
  have hc4 : 3 * b ≤ 2 * b + b := by omega
  have hw2 : 2 &&& 4294901760 = 0 := by decide
  have hw4 : 4 &&& 4294901760 = 0 := by decide
  have e1 : tftp_rx_data (c3init b) (4 + b) 1 =
      { st := c3st1 b,
        evs := [Ev.write 0 b, Ev.seek b, Ev.seek 0, Ev.timerStop,
                Ev.timerStart, Ev.sendAck 1], rc := 0 } := by
    simp only [tftp_rx_data, tftp_presize, tftp_decode_block, c3init, c3st1,
      bitmap_first_gap, bitmap_set, bitmap_resize, bitmap_full,
      tftp_send_packet, tftp_send_ack, tftp_send_rrq]
    norm_num [hdiv1, hne, List.replicate]
  have e2 : tftp_rx_data (c3st1 b) (4 + b) 3 =
      { st := c3st2 b,
        evs := [Ev.write (2 * b) b, Ev.seek (2 * b + b), Ev.seek 0,
                Ev.timerStop, Ev.timerStart, Ev.sendAck 1], rc := 0 } := by
    simp only [tftp_rx_data, tftp_presize, tftp_decode_block, c3init, c3st1,
      c3st2, bitmap_first_gap, bitmap_set, bitmap_resize, bitmap_full,
      tftp_send_packet, tftp_send_ack, tftp_send_rrq]
    norm_num [hdiv3, hne, hm2b, hw2, List.replicate]
  have e3 : tftp_rx_data (c3st2 b) (4 + b) 2 =
      { st := c3st3 b,
        evs := [Ev.write b b, Ev.timerStop, Ev.timerStart, Ev.sendAck 3],
        rc := 0 } := by
    simp only [tftp_rx_data, tftp_presize, tftp_decode_block, c3init, c3st2,
      c3st3, bitmap_first_gap, bitmap_set, bitmap_resize, bitmap_full,
      tftp_send_packet, tftp_send_ack, tftp_send_rrq]
    norm_num [hne, hmb, hc3, hw2, List.replicate]
  have e4 : tftp_rx_data (c3st3 b) 4 4 =
      { st := c3st4 b,
        evs := [Ev.write (3 * b) 0, Ev.timerStop, Ev.timerStart,
                Ev.sendAck 4, Ev.done 0], rc := 0 } := by
    simp only [tftp_rx_data, tftp_presize, tftp_decode_block, c3init, c3st3,
      c3st4, bitmap_first_gap, bitmap_set, bitmap_resize, bitmap_full,
      tftp_send_packet, tftp_send_ack, tftp_send_rrq]
    norm_num [hne, hm3b, hc4, hw4, List.replicate]
  have hrun : c3run b =
      { st := c3st4 b,
        evs := [Ev.write 0 b, Ev.seek b, Ev.seek 0, Ev.timerStop,
                Ev.timerStart, Ev.sendAck 1,
                Ev.write (2 * b) b, Ev.seek (2 * b + b), Ev.seek 0,
                Ev.timerStop, Ev.timerStart, Ev.sendAck 1,
                Ev.write b b, Ev.timerStop, Ev.timerStart, Ev.sendAck 3,
                Ev.write (3 * b) 0, Ev.timerStop, Ev.timerStart,
                Ev.sendAck 4, Ev.done 0], rc := 0 } := by
    simp only [c3run, tftp_rx_data_seq, e1, e2, e3, e4]
    rfl
  rw [hrun]
  refine ⟨?_, ?_, ?_, ?_⟩
  · simp [writesOf]
  · simp [acksOf]
  · rfl
  · simp [c3st4, bitmap_full]

/-- Witness for C3's amended scenario at blksize 512: writes land at
offsets 0, 1024, 512, 1536 and the ACKs are 1, 1, 3, 4. -/
theorem C3_out_of_order_delivery_witness :
    writesOf (c3run 512).evs = [(0, 512), (1024, 512), (512, 512),
      (1536, 0)] ∧
    (c3run 512).evs.getLast? = some (Ev.done 0) := by
  have h := C3_out_of_order_delivery 512 (by decide) (by decide)
  refine ⟨?_, h.2.2.1⟩
  have hw := h.1
  norm_num at hw
  exact hw

end TftpSpec
